import Mathlib

/-!
Verification of the token registration core of the deltaswapio
token-bridge-relayer Solana program, embedded from
`src/solana/programs/token_bridge_relayer/src/processor/register_token.rs`.

The instruction `register_token` is guarded by the Anchor account
constraints of the `RegisterToken` accounts struct: the `config` account
carries `has_one = owner @ TokenBridgeRelayerError::OwnerOnly`, which is
checked before the handler body runs, and the `registered_token` account
is a PDA (seeds `[b"mint", mint.key()]`) created zero-initialized by
`init_if_needed` when absent.  The handler then checks, in order,
`!is_registered`, `swap_rate > 0`, and the native-mint constraint, and
on success overwrites the record with `set_inner`.  Any failing check
aborts the whole Solana transaction, so no account mutation persists on
error; we model this with an `Except` result and a `run_register`
wrapper that keeps the pre-state on error.
-/

namespace TokenBridgeRelayer

/-- Account public keys (Solana `Pubkey`), modelled abstractly as naturals. -/
abbrev Pubkey := Nat

/-- The distinguished native mint `spl_token::native_mint::ID`, a fixed
program-wide constant, modelled as a fixed abstract key. -/
def native_mint_ID : Pubkey := 0

/-- The error variants of `TokenBridgeRelayerError` reachable from
`register_token` (from `error.rs`, as referenced by the instruction). -/
inductive TokenBridgeRelayerError where
  | OwnerOnly
  | TokenAlreadyRegistered
  | ZeroSwapRate
  | SwapsNotAllowedForNativeMint
deriving DecidableEq, Repr

/-- The `RegisteredToken` per-mint account data (from `state.rs`):
`swap_rate: u64`, `max_native_swap_amount: u64`, `is_registered: bool`. -/
structure RegisteredToken where
  swap_rate : Nat
  max_native_swap_amount : Nat
  is_registered : Bool
deriving DecidableEq, Repr

/-- A fresh `registered_token` account created by `init_if_needed` is
zero-initialized: both `u64` fields are `0` and `is_registered` is false. -/
def init_registered_token : RegisteredToken :=
  { swap_rate := 0, max_native_swap_amount := 0, is_registered := false }

/-- The registry store: each mint key addresses at most one
`RegisteredToken` account (the PDA derived from `[b"mint", mint.key()]`);
`none` means the account does not exist yet. -/
abbrev Registry := Pubkey → Option RegisteredToken

/-- The registry state before any registration: no account exists. -/
def empty_registry : Registry := fun _ => none

/-- Shallow embedding of the `register_token` instruction, including the
Anchor-level `has_one = owner` check on `config` (which runs before the
handler).  `config_owner` is the owner pubkey stored in the `SenderConfig`
account, `caller` the signer of the transaction.  On success the result
carries the post-state of the registry; on error the transaction aborts. -/
def register_token (config_owner caller : Pubkey) (registry : Registry)
    (mint : Pubkey) (swap_rate max_native_swap_amount : Nat) :
    Except TokenBridgeRelayerError Registry :=
  if caller ≠ config_owner then
    .error .OwnerOnly
  else
    if ((registry mint).getD init_registered_token).is_registered then
      .error .TokenAlreadyRegistered
    else if ¬ swap_rate > 0 then
      .error .ZeroSwapRate
    else if ¬ (mint ≠ native_mint_ID ∨ max_native_swap_amount = 0) then
      .error .SwapsNotAllowedForNativeMint
    else
      .ok (Function.update registry mint (some
        { swap_rate := swap_rate,
          max_native_swap_amount := max_native_swap_amount,
          is_registered := true }))

/-- The registry state observed after the transaction: the new state on
success, the unchanged pre-state on error (the host rolls back every
account write of an aborted transaction). -/
def run_register (config_owner caller : Pubkey) (registry : Registry)
    (mint : Pubkey) (swap_rate max_native_swap_amount : Nat) : Registry :=
  match register_token config_owner caller registry mint swap_rate max_native_swap_amount with
  | .ok reg => reg
  | .error _ => registry

/-- One invocation of the instruction, for reasoning about call sequences. -/
structure RegisterCall where
  caller : Pubkey
  mint : Pubkey
  swap_rate : Nat
  max_native_swap_amount : Nat

/-- Folding a sequence of `register_token` invocations over the registry. -/
def run_calls (config_owner : Pubkey) (registry : Registry) :
    List RegisterCall → Registry
  | [] => registry
  | c :: cs =>
      run_calls config_owner
        (run_register config_owner c.caller registry c.mint
          c.swap_rate c.max_native_swap_amount) cs

/-- The record-level invariant: a registered record has a strictly
positive swap rate, and the native mint has zero max native swap amount. -/
def RecordInvariant (mint : Pubkey) (t : RegisteredToken) : Prop :=
  t.is_registered = true →
    t.swap_rate > 0 ∧ (mint = native_mint_ID → t.max_native_swap_amount = 0)

/-- The registry-wide invariant: every existing record satisfies
`RecordInvariant`. -/
def RegistryInvariant (registry : Registry) : Prop :=
  ∀ mint t, registry mint = some t → RecordInvariant mint t

/-- A sample registry in which mint 5 is registered with swap rate 100. -/
def sample_registry : Registry :=
  fun k => if k = 5 then some ⟨100, 0, true⟩ else none

/-- C1: for every asset and every `swap_rate > 0`, the first successful
`Register(owner, A, r, m)` (no registered record yet, and `m = 0` when A
is the native mint) returns success and sets the stored record for A to
exactly `{swap_rate := r, max_native_swap_amount := m, is_registered := true}`. -/
theorem register_token_first_success (config_owner : Pubkey) (registry : Registry)
    (mint : Pubkey) (r m : Nat)
    (hunreg : ((registry mint).getD init_registered_token).is_registered = false)
    (hr : r > 0)
    (hnative : mint = native_mint_ID → m = 0) :
    register_token config_owner config_owner registry mint r m =
      .ok (Function.update registry mint (some
        { swap_rate := r, max_native_swap_amount := m, is_registered := true })) ∧
    run_register config_owner config_owner registry mint r m mint =
      some { swap_rate := r, max_native_swap_amount := m, is_registered := true } := by
  have hor : mint ≠ native_mint_ID ∨ m = 0 := by
    by_cases he : mint = native_mint_ID
    · exact Or.inr (hnative he)
    · exact Or.inl he
  have h1 : register_token config_owner config_owner registry mint r m =
      .ok (Function.update registry mint (some
        { swap_rate := r, max_native_swap_amount := m, is_registered := true })) := by
    simp [register_token, hunreg, hr, hor]
  exact ⟨h1, by simp [run_register, h1, Function.update_same]⟩

/-- Witness for C1 at a concrete input: owner 1 registers the fresh
non-native mint 5 with swap rate 100 and max native swap amount 7. -/
theorem register_token_first_success_witness :
    register_token 1 1 empty_registry 5 100 7 =
      .ok (Function.update empty_registry 5 (some
        { swap_rate := 100, max_native_swap_amount := 7, is_registered := true })) ∧
    run_register 1 1 empty_registry 5 100 7 5 =
      some { swap_rate := 100, max_native_swap_amount := 7, is_registered := true } :=
  register_token_first_success 1 empty_registry 5 100 7 rfl (by decide) (by decide)

/-- C2: once a mint has a registered record, every subsequent
`Register(owner, A, r, m)` fails with `TokenAlreadyRegistered`, for all
`r` and `m`, and the registry is left entirely unchanged. -/
theorem register_token_already_registered (config_owner : Pubkey)
    (registry : Registry) (mint : Pubkey) (r m : Nat) (t : RegisteredToken)
    (hsome : registry mint = some t) (ht : t.is_registered = true) :
    register_token config_owner config_owner registry mint r m =
      .error .TokenAlreadyRegistered ∧
    run_register config_owner config_owner registry mint r m = registry := by
  have h1 : register_token config_owner config_owner registry mint r m =
      .error .TokenAlreadyRegistered := by
    simp [register_token, hsome, ht]
  exact ⟨h1, by simp [run_register, h1]⟩

/-- Witness for C2 at a concrete input: mint 5 is registered as
`{100, 0, true}` in `sample_registry`; re-registering it fails and the
registry is unchanged. -/
theorem register_token_already_registered_witness :
    register_token 1 1 sample_registry 5 50 0 =
      .error .TokenAlreadyRegistered ∧
    run_register 1 1 sample_registry 5 50 0 = sample_registry :=
  register_token_already_registered 1 sample_registry 5 50 0 ⟨100, 0, true⟩ rfl rfl

/-- C3: a caller different from the stored owner always fails with
`OwnerOnly` (the `has_one = owner` account constraint), whatever the
mint, swap rate, max native swap amount or registration state, and the
registry is not mutated. -/
theorem register_token_owner_only (config_owner caller : Pubkey)
    (registry : Registry) (mint : Pubkey) (r m : Nat)
    (hne : caller ≠ config_owner) :
    register_token config_owner caller registry mint r m = .error .OwnerOnly ∧
    run_register config_owner caller registry mint r m = registry := by
  have h1 : register_token config_owner caller registry mint r m =
      .error .OwnerOnly := by
    simp [register_token, hne]
  exact ⟨h1, by simp [run_register, h1]⟩

/-- Witness for C3 at a concrete input: caller 2 is not owner 1; the call
fails with `OwnerOnly` even though mint 5 is registered and the inputs
are otherwise invalid too. -/
theorem register_token_owner_only_witness :
    register_token 1 2 sample_registry 5 0 3 = .error .OwnerOnly ∧
    run_register 1 2 sample_registry 5 0 3 = sample_registry :=
  register_token_owner_only 1 2 sample_registry 5 0 3 (by decide)

/-- C4: the four preconditions are checked in the fixed order
authorization, already-registered, zero rate, native constraint; the
first failing check determines the returned error, and every failing
call leaves the registry unchanged. -/
theorem register_token_check_order (config_owner caller : Pubkey)
    (registry : Registry) (mint : Pubkey) (r m : Nat) :
    (caller ≠ config_owner →
      register_token config_owner caller registry mint r m = .error .OwnerOnly) ∧
    (caller = config_owner →
      ((registry mint).getD init_registered_token).is_registered = true →
      register_token config_owner caller registry mint r m =
        .error .TokenAlreadyRegistered) ∧
    (caller = config_owner →
      ((registry mint).getD init_registered_token).is_registered = false →
      r = 0 →
      register_token config_owner caller registry mint r m = .error .ZeroSwapRate) ∧
    (caller = config_owner →
      ((registry mint).getD init_registered_token).is_registered = false →
      r > 0 → mint = native_mint_ID → m ≠ 0 →
      register_token config_owner caller registry mint r m =
        .error .SwapsNotAllowedForNativeMint) ∧
    (∀ e, register_token config_owner caller registry mint r m = .error e →
      run_register config_owner caller registry mint r m = registry) := by
  refine ⟨?_, ?_, ?_, ?_, ?_⟩
  · intro hne; simp [register_token, hne]
  · intro hc hreg; subst hc; simp [register_token, hreg]
  · intro hc hreg hr; subst hc; subst hr; simp [register_token, hreg]
  · intro hc hreg hr hn hm; subst hc; subst hn
    simp [register_token, hreg, hr, hm]
  · intro e he; simp [run_register, he]

/-- Witness for C4 at concrete inputs: an already-registered mint with a
zero swap rate reports `TokenAlreadyRegistered` (not `ZeroSwapRate`); a
fresh mint with zero rate reports `ZeroSwapRate`; the native mint with a
nonzero max native swap amount reports `SwapsNotAllowedForNativeMint`;
and a failing call leaves the registry unchanged. -/
theorem register_token_check_order_witness :
    register_token 1 1 sample_registry 5 0 3 = .error .TokenAlreadyRegistered ∧
    register_token 1 1 empty_registry 6 0 3 = .error .ZeroSwapRate ∧
    register_token 1 1 empty_registry 0 10 3 =
      .error .SwapsNotAllowedForNativeMint ∧
    run_register 1 1 sample_registry 5 0 3 = sample_registry :=
  ⟨(register_token_check_order 1 1 sample_registry 5 0 3).2.1 rfl rfl,
   (register_token_check_order 1 1 empty_registry 6 0 3).2.2.1 rfl rfl rfl,
   (register_token_check_order 1 1 empty_registry 0 10 3).2.2.2.1 rfl rfl
     (by decide) rfl (by decide),
   (register_token_check_order 1 1 sample_registry 5 0 3).2.2.2.2 _
     ((register_token_check_order 1 1 sample_registry 5 0 3).2.1 rfl rfl)⟩

/-- C5: registering the native mint with a positive swap rate on an
unregistered record succeeds iff `max_native_swap_amount = 0`, and fails
with `SwapsNotAllowedForNativeMint` whenever it is nonzero. -/
theorem register_token_native_mint (config_owner : Pubkey) (registry : Registry)
    (r m : Nat)
    (hunreg : ((registry native_mint_ID).getD init_registered_token).is_registered
      = false)
    (hr : r > 0) :
    ((∃ reg2, register_token config_owner config_owner registry native_mint_ID r m
        = .ok reg2) ↔ m = 0) ∧
    (m ≠ 0 → register_token config_owner config_owner registry native_mint_ID r m
        = .error .SwapsNotAllowedForNativeMint) := by
  constructor
  · constructor
    · rintro ⟨reg2, hok⟩
      by_contra hm
      simp [register_token, hunreg, hr, hm] at hok
    · intro hm; subst hm
      refine ⟨Function.update registry native_mint_ID (some
        { swap_rate := r, max_native_swap_amount := 0, is_registered := true }), ?_⟩
      simp [register_token, hunreg, hr]
  · intro hm
    simp [register_token, hunreg, hr, hm]

/-- Witness for C5 at a concrete input: the native mint with swap rate 10
and max native swap amount 5 cannot be registered. -/
theorem register_token_native_mint_witness :
    ((∃ reg2, register_token 1 1 empty_registry native_mint_ID 10 5 = .ok reg2)
      ↔ (5 : Nat) = 0) ∧
    ((5 : Nat) ≠ 0 → register_token 1 1 empty_registry native_mint_ID 10 5
      = .error .SwapsNotAllowedForNativeMint) :=
  register_token_native_mint 1 empty_registry 10 5 rfl (by decide)

/-- Counterexample to C6 as stated: `Register(owner, A, 0, m)` on an
already-registered asset A fails with `TokenAlreadyRegistered`, which is
the StateConflict error, not the claimed ValidationError `ZeroSwapRate`. -/
theorem register_token_zero_rate_counterexample :
    register_token 1 1 sample_registry 5 0 0 = .error .TokenAlreadyRegistered ∧
    TokenBridgeRelayerError.TokenAlreadyRegistered ≠
      TokenBridgeRelayerError.ZeroSwapRate :=
  ⟨rfl, by decide⟩

/-- C6 amended: `Register(owner, A, 0, m)` always fails and never mutates
the registry; when A has no registered record it fails with the
ValidationError `ZeroSwapRate`, and when A is already registered it
fails with `TokenAlreadyRegistered`. -/
theorem register_token_zero_rate (config_owner : Pubkey) (registry : Registry)
    (mint : Pubkey) (m : Nat) :
    (((registry mint).getD init_registered_token).is_registered = false →
      register_token config_owner config_owner registry mint 0 m =
        .error .ZeroSwapRate) ∧
    (((registry mint).getD init_registered_token).is_registered = true →
      register_token config_owner config_owner registry mint 0 m =
        .error .TokenAlreadyRegistered) ∧
    run_register config_owner config_owner registry mint 0 m = registry := by
  refine ⟨?_, ?_, ?_⟩
  · intro h; simp [register_token, h]
  · intro h; simp [register_token, h]
  · cases h : ((registry mint).getD init_registered_token).is_registered with
    | false => simp [run_register, register_token, h]
    | true => simp [run_register, register_token, h]

/-- Witness for C6 (amended) at a concrete input: a fresh mint with zero
swap rate is rejected with `ZeroSwapRate` and no record is created. -/
theorem register_token_zero_rate_witness :
    register_token 1 1 empty_registry 6 0 9 = .error .ZeroSwapRate ∧
    run_register 1 1 empty_registry 6 0 9 = empty_registry :=
  ⟨(register_token_zero_rate 1 empty_registry 6 9).1 rfl,
   (register_token_zero_rate 1 empty_registry 6 9).2.2⟩

/-- Inversion on a successful call: success forces every precondition to
have held, and the post-state is exactly the point update of the mint. -/
theorem register_token_ok_cases (config_owner caller : Pubkey)
    (registry : Registry) (mint : Pubkey) (r m : Nat) (reg2 : Registry)
    (h : register_token config_owner caller registry mint r m = .ok reg2) :
    caller = config_owner ∧
    ((registry mint).getD init_registered_token).is_registered = false ∧
    r > 0 ∧ (mint = native_mint_ID → m = 0) ∧
    reg2 = Function.update registry mint (some
      { swap_rate := r, max_native_swap_amount := m, is_registered := true }) := by
  unfold register_token at h
  split_ifs at h with h1 h2 h3 h4
  simp only [Except.ok.injEq] at h
  refine ⟨not_not.mp h1, by simpa using h2, h3, ?_, h.symm⟩
  intro he
  rcases h4 with hne | hm
  · exact absurd he hne
  · exact hm

/-- Helper: on a successful call the observed post-state is the returned
registry. -/
theorem run_register_eq_of_ok (config_owner caller : Pubkey)
    (registry : Registry) (mint : Pubkey) (r m : Nat) (reg2 : Registry)
    (h : register_token config_owner caller registry mint r m = .ok reg2) :
    run_register config_owner caller registry mint r m = reg2 := by
  simp [run_register, h]

/-- Helper: on a failing call the observed post-state is the pre-state. -/
theorem run_register_eq_of_error (config_owner caller : Pubkey)
    (registry : Registry) (mint : Pubkey) (r m : Nat)
    (e : TokenBridgeRelayerError)
    (h : register_token config_owner caller registry mint r m = .error e) :
    run_register config_owner caller registry mint r m = registry := by
  simp [run_register, h]

/-- Helper: one invocation preserves the registry-wide invariant. -/
theorem run_register_preserves_invariant (config_owner caller : Pubkey)
    (registry : Registry) (mint : Pubkey) (r m : Nat)
    (hinv : RegistryInvariant registry) :
    RegistryInvariant (run_register config_owner caller registry mint r m) := by
  cases hres : register_token config_owner caller registry mint r m with
  | error e =>
    rw [run_register_eq_of_error _ _ _ _ _ _ _ hres]
    exact hinv
  | ok reg2 =>
    rw [run_register_eq_of_ok _ _ _ _ _ _ _ hres]
    obtain ⟨-, -, h3, h4, h5⟩ := register_token_ok_cases _ _ _ _ _ _ _ hres
    subst h5
    intro k t hk
    by_cases hkm : k = mint
    · subst hkm
      rw [Function.update_same] at hk
      injection hk with ht
      subst ht
      exact fun _ => ⟨h3, h4⟩
    · rw [Function.update_noteq hkm] at hk
      exact hinv k t hk

/-- Helper: any sequence of invocations preserves the invariant. -/
theorem run_calls_preserves_invariant (config_owner : Pubkey)
    (registry : Registry) (calls : List RegisterCall)
    (hinv : RegistryInvariant registry) :
    RegistryInvariant (run_calls config_owner registry calls) := by
  induction calls generalizing registry with
  | nil => exact hinv
  | cons c cs ih =>
    exact ih _ (run_register_preserves_invariant _ _ _ _ _ _ hinv)

/-- Helper: the empty registry satisfies the invariant. -/
theorem empty_registry_invariant : RegistryInvariant empty_registry := by
  intro k t hk
  simp [empty_registry] at hk

/-- C7: every registered record has a positive swap rate, and the native
mint additionally has zero max native swap amount; every invocation
(successful or failing) preserves this invariant, and every registry
reachable from the empty one by a sequence of invocations satisfies it. -/
theorem registry_invariant_preserved :
    (∀ config_owner caller registry mint r m, RegistryInvariant registry →
      RegistryInvariant (run_register config_owner caller registry mint r m)) ∧
    (∀ config_owner calls,
      RegistryInvariant (run_calls config_owner empty_registry calls)) :=
  ⟨fun a b c d e f h => run_register_preserves_invariant a b c d e f h,
   fun a calls =>
     run_calls_preserves_invariant a empty_registry calls empty_registry_invariant⟩

/-- Witness for C7 at a concrete input: the registry obtained by one
successful registration from the empty registry satisfies the invariant. -/
theorem registry_invariant_preserved_witness :
    RegistryInvariant (run_register 1 1 empty_registry 5 100 0) :=
  registry_invariant_preserved.1 1 1 empty_registry 5 100 0 empty_registry_invariant

/-- Helper: a registered record survives any single invocation unchanged. -/
theorem run_register_registered_frozen (config_owner caller : Pubkey)
    (registry : Registry) (mint : Pubkey) (r m : Nat) (A : Pubkey)
    (t : RegisteredToken) (hA : registry A = some t)
    (ht : t.is_registered = true) :
    run_register config_owner caller registry mint r m A = some t := by
  cases hres : register_token config_owner caller registry mint r m with
  | error e =>
    rw [run_register_eq_of_error _ _ _ _ _ _ _ hres]
    exact hA
  | ok reg2 =>
    obtain ⟨-, h2, -, -, h5⟩ := register_token_ok_cases _ _ _ _ _ _ _ hres
    subst h5
    rw [run_register_eq_of_ok _ _ _ _ _ _ _ hres]
    by_cases hAm : A = mint
    · subst hAm
      rw [hA] at h2
      simp at h2
      simp [h2] at ht
    · rw [Function.update_noteq hAm]
      exact hA

/-- Helper: a registered record survives any sequence of invocations. -/
theorem run_calls_registered_frozen (config_owner : Pubkey)
    (registry : Registry) (calls : List RegisterCall) (A : Pubkey)
    (t : RegisteredToken) (hA : registry A = some t)
    (ht : t.is_registered = true) :
    run_calls config_owner registry calls A = some t := by
  induction calls generalizing registry with
  | nil => exact hA
  | cons c cs ih =>
    exact ih _ (run_register_registered_frozen _ _ _ _ _ _ _ _ hA ht)

/-- Helper: whenever an invocation changes the record of some key, the
old record was unregistered and the new one is registered: the only
transition is Unregistered to Registered. -/
theorem run_register_change_shape (config_owner caller : Pubkey)
    (registry : Registry) (mint : Pubkey) (r m : Nat) (A : Pubkey)
    (hchg : run_register config_owner caller registry mint r m A ≠ registry A) :
    ((registry A).getD init_registered_token).is_registered = false ∧
    run_register config_owner caller registry mint r m A =
      some { swap_rate := r, max_native_swap_amount := m, is_registered := true } := by
  cases hres : register_token config_owner caller registry mint r m with
  | error e =>
    rw [run_register_eq_of_error _ _ _ _ _ _ _ hres] at hchg
    exact absurd rfl hchg
  | ok reg2 =>
    obtain ⟨-, h2, -, -, h5⟩ := register_token_ok_cases _ _ _ _ _ _ _ hres
    subst h5
    rw [run_register_eq_of_ok _ _ _ _ _ _ _ hres] at hchg ⊢
    by_cases hAm : A = mint
    · subst hAm
      exact ⟨h2, Function.update_same _ _ _⟩
    · rw [Function.update_noteq hAm] at hchg
      exact absurd rfl hchg

/-- C8: in every sequence of invocations, once a record is registered it
is never cleared or overwritten (it survives every later call verbatim),
and the only change any single invocation ever makes to a record is the
transition from unregistered to a registered record. -/
theorem registered_is_permanent :
    (∀ config_owner registry calls A t,
      registry A = some t → t.is_registered = true →
      run_calls config_owner registry calls A = some t) ∧
    (∀ config_owner caller registry mint r m A,
      run_register config_owner caller registry mint r m A ≠ registry A →
      ((registry A).getD init_registered_token).is_registered = false ∧
      run_register config_owner caller registry mint r m A =
        some { swap_rate := r, max_native_swap_amount := m, is_registered := true }) :=
  ⟨fun a b c d e h1 h2 => run_calls_registered_frozen a b c d e h1 h2,
   fun a b c d e f g h => run_register_change_shape a b c d e f g h⟩

/-- Witness for C8 at a concrete input: mint 5 is registered as
`{100, 0, true}`; after a re-registration attempt on 5 and a fresh
registration of 7, its record is still exactly `{100, 0, true}`. -/
theorem registered_is_permanent_witness :
    run_calls 1 sample_registry [⟨1, 5, 50, 0⟩, ⟨1, 7, 3, 4⟩] 5 =
      some { swap_rate := 100, max_native_swap_amount := 0, is_registered := true } :=
  registered_is_permanent.1 1 sample_registry [⟨1, 5, 50, 0⟩, ⟨1, 7, 3, 4⟩] 5
    ⟨100, 0, true⟩ rfl rfl

/-- C9: every invocation on mint A, successful or failing, leaves the
record of every other key B unchanged: the only location ever written is
the one addressed by A itself. -/
theorem register_token_frame (config_owner caller : Pubkey)
    (registry : Registry) (mint : Pubkey) (r m : Nat) (B : Pubkey)
    (hne : B ≠ mint) :
    run_register config_owner caller registry mint r m B = registry B := by
  cases hres : register_token config_owner caller registry mint r m with
  | error e =>
    rw [run_register_eq_of_error _ _ _ _ _ _ _ hres]
  | ok reg2 =>
    obtain ⟨-, -, -, -, h5⟩ := register_token_ok_cases _ _ _ _ _ _ _ hres
    subst h5
    rw [run_register_eq_of_ok _ _ _ _ _ _ _ hres]
    exact Function.update_noteq hne _ _

/-- Witness for C9 at a concrete input: successfully registering mint 6
leaves the record of mint 5 untouched. -/
theorem register_token_frame_witness :
    run_register 1 1 sample_registry 6 42 9 5 = sample_registry 5 :=
  register_token_frame 1 1 sample_registry 6 42 9 5 (by decide)

/-- C10: for a non-native unregistered mint and a positive swap rate, the
call succeeds for every value of `max_native_swap_amount` whatsoever: no
bound or positivity check is applied to it. -/
theorem register_token_nonnative_any_max (config_owner : Pubkey)
    (registry : Registry) (mint : Pubkey) (r : Nat)
    (hnn : mint ≠ native_mint_ID)
    (hunreg : ((registry mint).getD init_registered_token).is_registered = false)
    (hr : r > 0) :
    ∀ m, register_token config_owner config_owner registry mint r m =
      .ok (Function.update registry mint (some
        { swap_rate := r, max_native_swap_amount := m, is_registered := true })) := by
  intro m
  simp [register_token, hunreg, hr, hnn]

/-- Witness for C10 at concrete inputs: mint 5 registers successfully
with `max_native_swap_amount` equal to the largest u64 value and to 0. -/
theorem register_token_nonnative_any_max_witness :
    register_token 1 1 empty_registry 5 3 18446744073709551615 =
      .ok (Function.update empty_registry 5 (some
        { swap_rate := 3, max_native_swap_amount := 18446744073709551615,
          is_registered := true })) ∧
    register_token 1 1 empty_registry 5 3 0 =
      .ok (Function.update empty_registry 5 (some
        { swap_rate := 3, max_native_swap_amount := 0, is_registered := true })) :=
  ⟨register_token_nonnative_any_max 1 empty_registry 5 3 (by decide) rfl (by decide)
      18446744073709551615,
   register_token_nonnative_any_max 1 empty_registry 5 3 (by decide) rfl (by decide) 0⟩

end TokenBridgeRelayer
